import Mathlib

/-!
# Verification of the SMART-FARM decision and alert-dispatch engine

Shallow embedding of the decision core of the repository:
`config.py` (class `Config`), `gemini_utils.py` (class `GeminiProcessor`)
and `sms_utils.py` (class `SMSManager`).

Modelling conventions:
* Python floats (temperatures, humidities) are embedded as rationals `ℚ`;
  integer sensor values and thresholds as `ℤ`; instants (`datetime.now()`)
  as integer seconds, so `(t2 - t1).total_seconds()` becomes `t2 - t1`.
* The remote Gemini call and the Africa's Talking SMS call are external
  capabilities; their outcomes are passed in as explicit parameters
  (`OracleOutcome`, `notify`).  Each `_send_sms` invocation is recorded in
  an `attempts` log so that "the notifier was invoked" is observable.
* The message strings reproduce the source texts with the emoji prefixes
  elided and the degree sign rendered as `degC`.
-/

namespace SmartFarm

/-- The configuration constants of `config.py` (class `Config`) that the
decision core reads, with their environment-derived values as fields. -/
structure Config where
  GEMINI_API_KEY : String
  TEMP_HOT_THRESHOLD : ℚ
  TEMP_COLD_THRESHOLD : ℚ
  GAS_ALERT_THRESHOLD : ℤ
  LIGHT_BRIGHT_THRESHOLD : ℤ
  LIGHT_DIM_THRESHOLD : ℤ
  HUMIDITY_HIGH_THRESHOLD : ℚ
  HUMIDITY_LOW_THRESHOLD : ℚ
  AT_USERNAME : String
  AT_API_KEY : String
  AT_RECIPIENT_PHONE : String
  GAS_ALERT_COOLDOWN : ℤ
  SMS_ENABLED : Bool
deriving Repr, DecidableEq

/-- The default configuration values from `config.py` (the `os.getenv`
defaults), with placeholder credential strings. -/
def defaultConfig : Config :=
  { GEMINI_API_KEY := "key"
    TEMP_HOT_THRESHOLD := 30
    TEMP_COLD_THRESHOLD := 15
    GAS_ALERT_THRESHOLD := 300
    LIGHT_BRIGHT_THRESHOLD := 700
    LIGHT_DIM_THRESHOLD := 200
    HUMIDITY_HIGH_THRESHOLD := 70
    HUMIDITY_LOW_THRESHOLD := 30
    AT_USERNAME := "user"
    AT_API_KEY := "atkey"
    AT_RECIPIENT_PHONE := "+254700000000"
    GAS_ALERT_COOLDOWN := 300
    SMS_ENABLED := true }

/-- One sensor reading, as the dict handed to `process_sensor_data` and
`send_farmer_alert` (the `timestamp` entry is only interpolated into the
prompt and never branched on, so it is omitted). -/
structure Reading where
  temperature : ℚ
  humidity : ℚ
  light_intensity : ℤ
  gas_level : ℤ
deriving Repr, DecidableEq

/-- A control decision: the six-field dict produced by
`GeminiProcessor.process_sensor_data` / `_fallback_decision`. -/
structure Decision where
  action : String
  led : String
  fan : String
  gas_alert : Bool
  reasoning : String
  priority : String
deriving Repr, DecidableEq

/-- `GeminiProcessor._get_led_color_by_temp`. -/
def getLedColorByTemp (cfg : Config) (temperature : ℚ) : String :=
  if temperature ≥ cfg.TEMP_HOT_THRESHOLD then "red"
  else if temperature < cfg.TEMP_COLD_THRESHOLD then "blue"
  else "yellow"

/-- `GeminiProcessor._get_priority`. -/
def getPriority (cfg : Config) (sensor_data : Reading) : String :=
  if sensor_data.gas_level > cfg.GAS_ALERT_THRESHOLD then "critical"
  else if sensor_data.temperature ≥ cfg.TEMP_HOT_THRESHOLD ∨
          sensor_data.temperature < cfg.TEMP_COLD_THRESHOLD then "high"
  else if sensor_data.humidity > cfg.HUMIDITY_HIGH_THRESHOLD ∨
          sensor_data.humidity < cfg.HUMIDITY_LOW_THRESHOLD then "medium"
  else "low"

/-- `GeminiProcessor._fallback_decision`: the rule-based decision used
whenever AI processing fails. -/
def fallbackDecision (cfg : Config) (sensor_data : Reading) : Decision :=
  let temperature := sensor_data.temperature
  let gas_level := sensor_data.gas_level
  let (action, led, fan) :=
    if temperature ≥ cfg.TEMP_HOT_THRESHOLD then ("start fan", "red", "on")
    else if temperature < cfg.TEMP_COLD_THRESHOLD then ("stop fan", "blue", "off")
    else ("stop fan", "yellow", "off")
  let gas_alert : Bool := gas_level > cfg.GAS_ALERT_THRESHOLD
  let action := if gas_alert then "trigger gas alert" else action
  let priority := getPriority cfg sensor_data
  { action := action
    led := led
    fan := fan
    gas_alert := gas_alert
    reasoning := s!"Fallback rule-based decision: temp={temperature}degC, gas={gas_level}"
    priority := priority }

/-- A JSON value sitting in one field of a parsed oracle reply, at the
granularity the adapter inspects it (string, boolean, or anything else). -/
inductive JVal where
  | str (s : String)
  | bool (b : Bool)
  | other
deriving Repr, DecidableEq

/-- The dict obtained from `json.loads` on the oracle reply: each of the six
required keys may be present (with a value) or absent. The free-text keys
`action` and `reasoning` are never inspected, only carried, so their values
are modelled by their string rendering. -/
structure RawAIDecision where
  action : Option String
  led : Option JVal
  fan : Option JVal
  gas_alert : Option JVal
  reasoning : Option String
  priority : Option JVal
deriving Repr, DecidableEq

/-- Outcome of one invocation of the Gemini capability, as observed by
`process_sensor_data`: an exception anywhere in the `try` (transport,
timeout, capability error), or a reply text whose `json.loads` either
fails (`none`) or yields a dict. -/
inductive OracleOutcome where
  | exn
  | reply (parsed : Option RawAIDecision)
deriving Repr, DecidableEq

/-- The `missing_fields` check of `process_sensor_data`: true iff any of the
six required fields is absent from the parsed reply. -/
def hasMissingField (d : RawAIDecision) : Bool :=
  d.action.isNone || d.led.isNone || d.fan.isNone || d.gas_alert.isNone ||
    d.reasoning.isNone || d.priority.isNone

/-- `GeminiProcessor.process_sensor_data`, with the oracle interaction
factored out into an `OracleOutcome` parameter: exception or JSON-parse
failure or missing field falls back wholesale; otherwise each inspected
field is independently repaired. -/
def processSensorData (cfg : Config) (sensor_data : Reading)
    (oracle : OracleOutcome) : Decision :=
  match oracle with
  | .exn => fallbackDecision cfg sensor_data
  | .reply none => fallbackDecision cfg sensor_data
  | .reply (some raw) =>
    match raw.action, raw.led, raw.fan, raw.gas_alert, raw.reasoning, raw.priority with
    | some action, some led, some fan, some gas, some reasoning, some priority =>
      let led :=
        match led with
        | .str s =>
          if s == "red" || s == "yellow" || s == "blue" || s == "off" then s
          else getLedColorByTemp cfg sensor_data.temperature
        | _ => getLedColorByTemp cfg sensor_data.temperature
      let fan :=
        match fan with
        | .str s =>
          if s == "on" || s == "off" then s
          else if sensor_data.temperature ≥ cfg.TEMP_HOT_THRESHOLD then "on" else "off"
        | _ => if sensor_data.temperature ≥ cfg.TEMP_HOT_THRESHOLD then "on" else "off"
      let gas_alert :=
        match gas with
        | .bool b => b
        | _ => decide (sensor_data.gas_level > cfg.GAS_ALERT_THRESHOLD)
      let priority :=
        match priority with
        | .str s =>
          if s == "low" || s == "medium" || s == "high" || s == "critical" then s
          else getPriority cfg sensor_data
        | _ => getPriority cfg sensor_data
      { action := action
        led := led
        fan := fan
        gas_alert := gas_alert
        reasoning := reasoning
        priority := priority }
    | _, _, _, _, _, _ => fallbackDecision cfg sensor_data

/-- The failure condition of claim C1 on an oracle outcome: the invocation
raised, or the reply did not parse, or a required field is missing. -/
def oracleFailure : OracleOutcome → Bool
  | .exn => true
  | .reply none => true
  | .reply (some raw) => hasMissingField raw

/-- A benign example reading used to instantiate universally quantified
theorems. -/
def quietReading : Reading :=
  { temperature := 25, humidity := 50, light_intensity := 500, gas_level := 100 }

/-- The reading of the end-to-end example of the specification. -/
def exampleReading : Reading :=
  { temperature := mkRat 358 10, humidity := 85, light_intensity := 950, gas_level := 520 }

/-- C1: whenever the oracle invocation raises, or its reply fails to parse,
or a required field is missing, `process_sensor_data` returns exactly the
fallback decision (and in particular does not raise). -/
theorem evaluate_degrades_to_fallback (cfg : Config) (r : Reading)
    (o : OracleOutcome) (h : oracleFailure o = true) :
    processSensorData cfg r o = fallbackDecision cfg r := by
  match o with
  | .exn => rfl
  | .reply none => rfl
  | .reply (some raw) =>
    obtain ⟨a, l, f, g, re, p⟩ := raw
    simp only [oracleFailure, hasMissingField, Bool.or_eq_true, Option.isNone_iff_eq_none] at h
    cases a <;> cases l <;> cases f <;> cases g <;> cases re <;> cases p <;>
      first
        | rfl
        | simp at h

/-- Witness for C1 at a concrete failing oracle outcome. -/
theorem evaluate_degrades_to_fallback_witness :
    oracleFailure .exn = true ∧
      processSensorData defaultConfig quietReading .exn =
        fallbackDecision defaultConfig quietReading :=
  ⟨rfl, evaluate_degrades_to_fallback defaultConfig quietReading .exn rfl⟩

/-- C2: on the end-to-end example reading, with default thresholds and the
oracle unavailable, the fallback decision is gas-alerted, red, fan on,
critical. -/
theorem fallback_end_to_end_example :
    (fallbackDecision defaultConfig exampleReading).action = "trigger gas alert" ∧
    (fallbackDecision defaultConfig exampleReading).led = "red" ∧
    (fallbackDecision defaultConfig exampleReading).fan = "on" ∧
    (fallbackDecision defaultConfig exampleReading).gas_alert = true ∧
    (fallbackDecision defaultConfig exampleReading).priority = "critical" := by
  decide

/-- C8: any reading whose gas level is strictly above the configured gas
threshold gets a `critical` fallback priority, whatever the temperature and
humidity are. -/
theorem gas_dominates_priority (cfg : Config) (r : Reading)
    (h : r.gas_level > cfg.GAS_ALERT_THRESHOLD) :
    (fallbackDecision cfg r).priority = "critical" := by
  simp only [fallbackDecision, getPriority, if_pos h]

/-- Witness for C8 on a concrete over-threshold reading. -/
theorem gas_dominates_priority_witness :
    exampleReading.gas_level > defaultConfig.GAS_ALERT_THRESHOLD ∧
      (fallbackDecision defaultConfig exampleReading).priority = "critical" :=
  ⟨by decide, gas_dominates_priority defaultConfig exampleReading (by decide)⟩

/-- The three alert categories `send_farmer_alert` evaluates (the keys used
in `SMSManager.last_state` / `last_alert_time`). -/
inductive AlertType where
  | gas_alert
  | temperature
  | priority
deriving Repr, DecidableEq

/-- The mutable state of an `SMSManager`: whether the SMS client initialized
(`sms_enabled`), the per-category `last_state` snapshots, and the
`last_alert_time` entry for the only key ever written (`gas_alert`). -/
structure SMSManagerState where
  sms_enabled : Bool
  last_state_temperature : Option Decision
  last_state_priority : Option Decision
  last_state_gas_alert : Option Decision
  last_alert_time_gas_alert : Option ℤ
deriving Repr, DecidableEq

/-- Lookup in the `last_state` dict by category key. -/
def lastState (st : SMSManagerState) : AlertType → Option Decision
  | .gas_alert => st.last_state_gas_alert
  | .temperature => st.last_state_temperature
  | .priority => st.last_state_priority

/-- `SMSManager._should_send_alert`.  The gas branch is taken only when the
category is `gas_alert` AND the decision carries a gas alert; otherwise the
state-change checks run, and a category with no recorded snapshot (or the
`gas_alert` category with `gas_alert` false, which matches neither inner
branch) falls through to the final `return True`. -/
def shouldSendAlert (cfg : Config) (st : SMSManagerState) (now : ℤ)
    (alertType : AlertType) (current_decision : Decision) : Bool :=
  if alertType = .gas_alert ∧ current_decision.gas_alert = true then
    match st.last_alert_time_gas_alert with
    | none => true
    | some last_gas_alert => decide (now - last_gas_alert ≥ cfg.GAS_ALERT_COOLDOWN)
  else
    match lastState st alertType with
    | some last_decision =>
      match alertType with
      | .temperature =>
        last_decision.fan != current_decision.fan ||
          last_decision.led != current_decision.led
      | .priority =>
        (current_decision.priority == "high" || current_decision.priority == "critical") &&
          !(last_decision.priority == "high" || last_decision.priority == "critical")
      | .gas_alert => true
    | none => true

/-- `SMSManager._format_temperature_message` (emoji elided, degree sign
rendered `degC`).  Reads the `temperature` snapshot of `last_state` for the
"normalized" branch. -/
def formatTemperatureMessage (cfg : Config) (st : SMSManagerState)
    (decision : Decision) (sensor_data : Reading) : String :=
  let temp := sensor_data.temperature
  let fan_state := decision.fan
  if temp ≥ cfg.TEMP_HOT_THRESHOLD then
    if fan_state == "on" then
      s!"HIGH TEMP ALERT: {temp}degC detected! Fan turned ON automatically. Red warning light activated. Please check your crops immediately."
    else
      s!"HIGH TEMPERATURE: {temp}degC recorded. Please monitor your crops closely."
  else if temp < cfg.TEMP_COLD_THRESHOLD then
    s!"LOW TEMP ALERT: {temp}degC detected! Fan turned OFF. Blue indicator active. Consider protective measures for your crops."
  else
    if (st.last_state_temperature.map Decision.fan).getD "" == "on" then
      s!"TEMP NORMALIZED: {temp}degC. Fan turned OFF automatically. Yellow indicator shows normal conditions."
    else
      s!"Temperature normal: {temp}degC. All systems operating normally."

/-- `SMSManager._format_gas_message` (emoji elided). -/
def formatGasMessage (decision : Decision) (sensor_data : Reading) : String :=
  let gas_level := sensor_data.gas_level
  if decision.gas_alert then
    s!"GAS ALERT! Dangerous gas levels detected ({gas_level}/1023). IMMEDIATE ACTION REQUIRED! Check for gas leaks, ensure ventilation, and evacuate if necessary."
  else
    s!"Gas levels normalized ({gas_level}/1023). Safe to resume normal operations."

/-- `SMSManager._format_priority_message` (emoji elided). -/
def formatPriorityMessage (decision : Decision) (sensor_data : Reading) : String :=
  let priority := decision.priority
  let temp := sensor_data.temperature
  let gas := sensor_data.gas_level
  let humidity := sensor_data.humidity
  if priority == "critical" then
    s!"CRITICAL ALERT! Multiple issues detected - Temp: {temp}degC, Gas: {gas}, Humidity: {humidity} percent. Immediate attention required!"
  else if priority == "high" then
    s!"HIGH PRIORITY: Environmental conditions need attention - Temp: {temp}degC, Gas: {gas}. Please check your setup."
  else
    s!"System Update: All sensors normal - Temp: {temp}degC, Humidity: {humidity} percent, Gas: {gas}."

/-- The dict returned by `SMSManager.send_farmer_alert`: the keys it can
carry across its return paths (`count` and `reason` are absent, i.e.
`none`, on the paths that do not set them; `error` is set only by the
`except` handler, which the embedded body never reaches because
`_send_sms` catches its own exceptions). -/
structure DispatchResult where
  success : Bool
  alerts_sent : List AlertType
  count : Option ℕ
  reason : Option String
  error : Option String
deriving Repr, DecidableEq

/-- One call to `send_farmer_alert`: the returned dict, the manager state
after the call, and the log of `_send_sms` invocations (category and
message), in invocation order. -/
structure DispatchOutcome where
  result : DispatchResult
  state : SMSManagerState
  attempts : List (AlertType × String)
deriving Repr, DecidableEq

/-- `SMSManager.send_farmer_alert`.  `notify ty m` is the `success` field of
the `_send_sms(m, ty)` result.  The source records the gas send time with a
second `datetime.now()` taken moments after the dedup check; both are
modelled by the single instant `now`.  After the gas category possibly
updates its cooldown clock, the temperature and priority checks run against
the partially updated state `st1`, exactly as the source methods read
`self`. -/
def sendFarmerAlert (cfg : Config) (st : SMSManagerState) (now : ℤ)
    (decision : Decision) (sensor_data : Reading)
    (notify : AlertType → String → Bool) : DispatchOutcome :=
  if st.sms_enabled = false then
    { result := { success := false, alerts_sent := [], count := none,
                  reason := some "SMS service not configured", error := none }
      state := st, attempts := [] }
  else if cfg.AT_RECIPIENT_PHONE = "" then
    { result := { success := false, alerts_sent := [], count := none,
                  reason := some "No recipient phone number", error := none }
      state := st, attempts := [] }
  else
    -- gas alerts (highest priority)
    let gasGo := decision.gas_alert && shouldSendAlert cfg st now .gas_alert decision
    let gasMsg := formatGasMessage decision sensor_data
    let gasOk := gasGo && notify .gas_alert gasMsg
    let attempts1 : List (AlertType × String) :=
      if gasGo then [(.gas_alert, gasMsg)] else []
    let sent1 : List AlertType := if gasOk then [.gas_alert] else []
    let st1 := if gasOk then { st with last_alert_time_gas_alert := some now } else st
    -- temperature state changes
    let tempGo := shouldSendAlert cfg st1 now .temperature decision
    let tempMsg := formatTemperatureMessage cfg st1 decision sensor_data
    let tempOk := tempGo && notify .temperature tempMsg
    let attempts2 := attempts1 ++ (if tempGo then [(.temperature, tempMsg)] else [])
    let sent2 := sent1 ++ (if tempOk then [.temperature] else [])
    -- priority level changes
    let prioGo := shouldSendAlert cfg st1 now .priority decision &&
      (decision.priority == "high" || decision.priority == "critical")
    let prioMsg := formatPriorityMessage decision sensor_data
    let prioOk := prioGo && notify .priority prioMsg
    let attempts3 := attempts2 ++ (if prioGo then [(.priority, prioMsg)] else [])
    let sent3 := sent2 ++ (if prioOk then [.priority] else [])
    -- update state tracking: every snapshot is rebaselined to this decision
    let st2 := { st1 with
      last_state_temperature := some decision
      last_state_priority := some decision
      last_state_gas_alert := some decision }
    let result :=
      if sent3.isEmpty then
        { success := true, alerts_sent := [], count := none,
          reason := some "No state changes requiring alerts", error := none }
      else
        { success := true, alerts_sent := sent3, count := some sent3.length,
          reason := none, error := none }
    { result := result, state := st2, attempts := attempts3 }

/-- The number of notifier invocations a dispatch call made for a given
category. -/
def attemptCount (o : DispatchOutcome) (ty : AlertType) : ℕ :=
  (o.attempts.filter (fun p => p.1 == ty)).length

/-- The gas cooldown clock is invisible to the temperature dedup check. -/
theorem shouldSendAlert_temperature_time (cfg : Config) (st : SMSManagerState)
    (t : Option ℤ) (now : ℤ) (d : Decision) :
    shouldSendAlert cfg { st with last_alert_time_gas_alert := t } now .temperature d =
      shouldSendAlert cfg st now .temperature d := rfl

/-- The gas cooldown clock is invisible to the priority dedup check. -/
theorem shouldSendAlert_priority_time (cfg : Config) (st : SMSManagerState)
    (t : Option ℤ) (now : ℤ) (d : Decision) :
    shouldSendAlert cfg { st with last_alert_time_gas_alert := t } now .priority d =
      shouldSendAlert cfg st now .priority d := rfl

/-- The gas cooldown clock is invisible to the temperature message text. -/
theorem formatTemperatureMessage_time (cfg : Config) (st : SMSManagerState)
    (t : Option ℤ) (d : Decision) (r : Reading) :
    formatTemperatureMessage cfg { st with last_alert_time_gas_alert := t } d r =
      formatTemperatureMessage cfg st d r := rfl

/-- The early return of `send_farmer_alert` when the SMS client failed to
initialize: nothing is attempted and the state is untouched. -/
theorem sendFarmerAlert_disabled (cfg : Config) (st : SMSManagerState) (now : ℤ)
    (d : Decision) (r : Reading) (notify : AlertType → String → Bool)
    (hen : st.sms_enabled = false) :
    sendFarmerAlert cfg st now d r notify =
      { result := { success := false, alerts_sent := [], count := none,
                    reason := some "SMS service not configured", error := none }
        state := st, attempts := [] } := by
  unfold sendFarmerAlert
  rw [if_pos hen]

/-- The early return of `send_farmer_alert` when no recipient phone number is
configured: nothing is attempted and the state is untouched. -/
theorem sendFarmerAlert_no_recipient (cfg : Config) (st : SMSManagerState) (now : ℤ)
    (d : Decision) (r : Reading) (notify : AlertType → String → Bool)
    (h1 : st.sms_enabled = true) (h2 : cfg.AT_RECIPIENT_PHONE = "") :
    sendFarmerAlert cfg st now d r notify =
      { result := { success := false, alerts_sent := [], count := none,
                    reason := some "No recipient phone number", error := none }
        state := st, attempts := [] } := by
  unfold sendFarmerAlert
  rw [if_neg (by simp [h1]), if_pos h2]

/-- Characterization of the notifier-invocation log of one
`send_farmer_alert` call: each category is attempted exactly when its guard
holds, in the fixed order gas, temperature, priority. -/
theorem sendFarmerAlert_attempts (cfg : Config) (st : SMSManagerState) (now : ℤ)
    (d : Decision) (r : Reading) (notify : AlertType → String → Bool)
    (h1 : st.sms_enabled = true) (h2 : ¬ cfg.AT_RECIPIENT_PHONE = "") :
    (sendFarmerAlert cfg st now d r notify).attempts =
      (if d.gas_alert && shouldSendAlert cfg st now .gas_alert d then
        [(.gas_alert, formatGasMessage d r)] else []) ++
      (if shouldSendAlert cfg st now .temperature d then
        [(.temperature, formatTemperatureMessage cfg st d r)] else []) ++
      (if shouldSendAlert cfg st now .priority d &&
          (d.priority == "high" || d.priority == "critical") then
        [(.priority, formatPriorityMessage d r)] else []) := by
  have hen : ¬ st.sms_enabled = false := by simp [h1]
  unfold sendFarmerAlert
  rw [if_neg hen, if_neg h2]
  cases hok : d.gas_alert && shouldSendAlert cfg st now .gas_alert d &&
      notify .gas_alert (formatGasMessage d r) <;>
    simp [hok, shouldSendAlert_temperature_time, shouldSendAlert_priority_time,
      formatTemperatureMessage_time]

/-- Characterization of the state after one `send_farmer_alert` call: all
three snapshots are rebaselined to the current decision, and the gas
cooldown clock advances exactly when a gas message was sent successfully. -/
theorem sendFarmerAlert_state (cfg : Config) (st : SMSManagerState) (now : ℤ)
    (d : Decision) (r : Reading) (notify : AlertType → String → Bool)
    (h1 : st.sms_enabled = true) (h2 : ¬ cfg.AT_RECIPIENT_PHONE = "") :
    (sendFarmerAlert cfg st now d r notify).state =
      { sms_enabled := st.sms_enabled
        last_state_temperature := some d
        last_state_priority := some d
        last_state_gas_alert := some d
        last_alert_time_gas_alert :=
          if d.gas_alert && shouldSendAlert cfg st now .gas_alert d &&
              notify .gas_alert (formatGasMessage d r)
          then some now else st.last_alert_time_gas_alert } := by
  have hen : ¬ st.sms_enabled = false := by simp [h1]
  unfold sendFarmerAlert
  rw [if_neg hen, if_neg h2]
  cases hok : d.gas_alert && shouldSendAlert cfg st now .gas_alert d &&
      notify .gas_alert (formatGasMessage d r) <;>
    simp [hok]

/-- Characterization of `alerts_sent`: a category is reported sent exactly
when its guard held and its notifier invocation succeeded. -/
theorem sendFarmerAlert_alerts_sent (cfg : Config) (st : SMSManagerState) (now : ℤ)
    (d : Decision) (r : Reading) (notify : AlertType → String → Bool)
    (h1 : st.sms_enabled = true) (h2 : ¬ cfg.AT_RECIPIENT_PHONE = "") :
    (sendFarmerAlert cfg st now d r notify).result.alerts_sent =
      (if d.gas_alert && shouldSendAlert cfg st now .gas_alert d &&
          notify .gas_alert (formatGasMessage d r) then
        [AlertType.gas_alert] else []) ++
      (if shouldSendAlert cfg st now .temperature d &&
          notify .temperature (formatTemperatureMessage cfg st d r) then
        [AlertType.temperature] else []) ++
      (if shouldSendAlert cfg st now .priority d &&
          (d.priority == "high" || d.priority == "critical") &&
          notify .priority (formatPriorityMessage d r) then
        [AlertType.priority] else []) := by
  have hen : ¬ st.sms_enabled = false := by simp [h1]
  unfold sendFarmerAlert
  rw [if_neg hen, if_neg h2]
  cases hok : d.gas_alert && shouldSendAlert cfg st now .gas_alert d &&
      notify .gas_alert (formatGasMessage d r) <;>
  · simp only [hok, Bool.false_eq_true, if_false, if_true,
      shouldSendAlert_temperature_time, shouldSendAlert_priority_time,
      formatTemperatureMessage_time]
    cases htm : shouldSendAlert cfg st now .temperature d &&
        notify .temperature (formatTemperatureMessage cfg st d r) <;>
    · cases hpr : shouldSendAlert cfg st now .priority d &&
          (d.priority == "high" || d.priority == "critical") &&
          notify .priority (formatPriorityMessage d r) <;>
        simp [hok, htm, hpr, shouldSendAlert_temperature_time,
          shouldSendAlert_priority_time, formatTemperatureMessage_time]

/-- The `error` key of the returned dict is never populated: `_send_sms`
catches its own exceptions, so the outer handler is unreachable. -/
theorem sendFarmerAlert_error_none (cfg : Config) (st : SMSManagerState) (now : ℤ)
    (d : Decision) (r : Reading) (notify : AlertType → String → Bool) :
    (sendFarmerAlert cfg st now d r notify).result.error = none := by
  unfold sendFarmerAlert
  split
  · rfl
  split
  · rfl
  simp only [apply_ite (fun res : DispatchResult => res.error)]
  exact ite_self none

/-- C7: a dispatch call that reaches its category loop rebaselines all three
`last_state` snapshots to the current decision, whatever was sent and
whatever the notifier returned. -/
theorem dispatch_rebaselines_all_snapshots (cfg : Config) (st : SMSManagerState)
    (now : ℤ) (d : Decision) (r : Reading) (notify : AlertType → String → Bool)
    (h1 : st.sms_enabled = true) (h2 : ¬ cfg.AT_RECIPIENT_PHONE = "") :
    (sendFarmerAlert cfg st now d r notify).state.last_state_gas_alert = some d ∧
    (sendFarmerAlert cfg st now d r notify).state.last_state_temperature = some d ∧
    (sendFarmerAlert cfg st now d r notify).state.last_state_priority = some d := by
  rw [sendFarmerAlert_state cfg st now d r notify h1 h2]
  exact ⟨rfl, rfl, rfl⟩

/-- Witness for C7 at a concrete call. -/
theorem dispatch_rebaselines_all_snapshots_witness :
    let st : SMSManagerState :=
      { sms_enabled := true, last_state_temperature := none,
        last_state_priority := none, last_state_gas_alert := none,
        last_alert_time_gas_alert := none }
    let d := fallbackDecision defaultConfig quietReading
    let o := sendFarmerAlert defaultConfig st 0 d quietReading (fun _ _ => true)
    o.state.last_state_gas_alert = some d ∧
    o.state.last_state_temperature = some d ∧
    o.state.last_state_priority = some d :=
  dispatch_rebaselines_all_snapshots defaultConfig _ 0 _ quietReading _
    rfl (by decide)

/-- C10: a decision without a gas alert never produces a gas-category
notifier invocation from any state (in particular the gas-cleared message is
never dispatched and `gas_alert` is never reported sent), even though the
should-send predicate alone returns true for the gas category whenever a
prior snapshot exists. -/
theorem gas_category_requires_gas_alert (cfg : Config) (st : SMSManagerState)
    (now : ℤ) (d : Decision) (r : Reading) (notify : AlertType → String → Bool)
    (h : d.gas_alert = false) :
    (∀ m, (AlertType.gas_alert, m) ∉ (sendFarmerAlert cfg st now d r notify).attempts) ∧
    AlertType.gas_alert ∉ (sendFarmerAlert cfg st now d r notify).result.alerts_sent ∧
    (st.last_state_gas_alert.isSome = true →
      shouldSendAlert cfg st now .gas_alert d = true) := by
  refine ⟨?_, ?_, ?_⟩
  · intro m
    cases hen : st.sms_enabled
    · rw [sendFarmerAlert_disabled cfg st now d r notify hen]
      simp
    · by_cases h2 : cfg.AT_RECIPIENT_PHONE = ""
      · rw [sendFarmerAlert_no_recipient cfg st now d r notify hen h2]
        simp
      · rw [sendFarmerAlert_attempts cfg st now d r notify hen h2]
        simp [h]
  · cases hen : st.sms_enabled
    · rw [sendFarmerAlert_disabled cfg st now d r notify hen]
      simp
    · by_cases h2 : cfg.AT_RECIPIENT_PHONE = ""
      · rw [sendFarmerAlert_no_recipient cfg st now d r notify hen h2]
        simp
      · rw [sendFarmerAlert_alerts_sent cfg st now d r notify hen h2]
        simp [h]
  · intro hs
    have hng : ¬ (AlertType.gas_alert = AlertType.gas_alert ∧ d.gas_alert = true) := by
      simp [h]
    unfold shouldSendAlert
    rw [if_neg hng]
    unfold lastState
    cases hgs : st.last_state_gas_alert with
    | none => exact absurd hs (by simp [hgs])
    | some last => rfl

/-- An `SMSManager` state as after a fresh start with no persisted file:
client initialized, no snapshots, no send times. -/
def freshState : SMSManagerState :=
  { sms_enabled := true
    last_state_temperature := none
    last_state_priority := none
    last_state_gas_alert := none
    last_alert_time_gas_alert := none }

/-- The gas dedup rule with no recorded send: always fire. -/
theorem shouldSendAlert_gas_none (cfg : Config) (st : SMSManagerState) (now : ℤ)
    (d : Decision) (hg : d.gas_alert = true)
    (h0 : st.last_alert_time_gas_alert = none) :
    shouldSendAlert cfg st now .gas_alert d = true := by
  unfold shouldSendAlert
  rw [if_pos ⟨rfl, hg⟩, h0]

/-- The gas dedup rule with a recorded send: fire iff the cooldown elapsed. -/
theorem shouldSendAlert_gas_some (cfg : Config) (st : SMSManagerState) (now : ℤ)
    (d : Decision) (t : ℤ) (hg : d.gas_alert = true)
    (h0 : st.last_alert_time_gas_alert = some t) :
    shouldSendAlert cfg st now .gas_alert d =
      decide (now - t ≥ cfg.GAS_ALERT_COOLDOWN) := by
  unfold shouldSendAlert
  rw [if_pos ⟨rfl, hg⟩, h0]

/-- One dispatch call makes exactly one gas notifier invocation when the gas
guard holds and none otherwise. -/
theorem attemptCount_gas_alert (cfg : Config) (st : SMSManagerState) (now : ℤ)
    (d : Decision) (r : Reading) (notify : AlertType → String → Bool)
    (h1 : st.sms_enabled = true) (h2 : ¬ cfg.AT_RECIPIENT_PHONE = "") :
    attemptCount (sendFarmerAlert cfg st now d r notify) .gas_alert =
      if d.gas_alert && shouldSendAlert cfg st now .gas_alert d then 1 else 0 := by
  rw [attemptCount, sendFarmerAlert_attempts cfg st now d r notify h1 h2]
  cases hg : d.gas_alert && shouldSendAlert cfg st now .gas_alert d <;>
  cases ht : shouldSendAlert cfg st now .temperature d <;>
  cases hp : shouldSendAlert cfg st now .priority d &&
      (d.priority == "high" || d.priority == "critical") <;>
    simp [hg, ht, hp, List.filter] <;> rfl

/-- C3: from a state with no recorded gas send, two consecutive gas-alerted
dispatch calls with a succeeding notifier make one gas notification attempt
in total when the second call comes within the cooldown of the first send,
and two when it comes at or after the cooldown. -/
theorem gas_cooldown_gating (cfg : Config) (st : SMSManagerState) (t1 t2 : ℤ)
    (d1 d2 : Decision) (r1 r2 : Reading) (n1 n2 : AlertType → String → Bool)
    (h1 : st.sms_enabled = true) (h2 : ¬ cfg.AT_RECIPIENT_PHONE = "")
    (h0 : st.last_alert_time_gas_alert = none)
    (hg1 : d1.gas_alert = true) (hg2 : d2.gas_alert = true)
    (hn1 : ∀ m, n1 .gas_alert m = true) (hn2 : ∀ m, n2 .gas_alert m = true) :
    (t2 - t1 < cfg.GAS_ALERT_COOLDOWN →
      attemptCount (sendFarmerAlert cfg st t1 d1 r1 n1) .gas_alert +
        attemptCount (sendFarmerAlert cfg (sendFarmerAlert cfg st t1 d1 r1 n1).state
          t2 d2 r2 n2) .gas_alert = 1) ∧
    (t2 - t1 ≥ cfg.GAS_ALERT_COOLDOWN →
      attemptCount (sendFarmerAlert cfg st t1 d1 r1 n1) .gas_alert +
        attemptCount (sendFarmerAlert cfg (sendFarmerAlert cfg st t1 d1 r1 n1).state
          t2 d2 r2 n2) .gas_alert = 2) := by
  have hs1 : shouldSendAlert cfg st t1 .gas_alert d1 = true :=
    shouldSendAlert_gas_none cfg st t1 d1 hg1 h0
  have hstate := sendFarmerAlert_state cfg st t1 d1 r1 n1 h1 h2
  have hstime : (sendFarmerAlert cfg st t1 d1 r1 n1).state.last_alert_time_gas_alert =
      some t1 := by
    rw [hstate]
    simp [hg1, hs1, hn1]
  have hsen : (sendFarmerAlert cfg st t1 d1 r1 n1).state.sms_enabled = true := by
    rw [hstate]
    exact h1
  have hc1 : attemptCount (sendFarmerAlert cfg st t1 d1 r1 n1) .gas_alert = 1 := by
    rw [attemptCount_gas_alert cfg st t1 d1 r1 n1 h1 h2, hg1, hs1]
    rfl
  have hs2 : shouldSendAlert cfg (sendFarmerAlert cfg st t1 d1 r1 n1).state
      t2 .gas_alert d2 = decide (t2 - t1 ≥ cfg.GAS_ALERT_COOLDOWN) :=
    shouldSendAlert_gas_some cfg _ t2 d2 t1 hg2 hstime
  have hc2 : attemptCount (sendFarmerAlert cfg (sendFarmerAlert cfg st t1 d1 r1 n1).state
      t2 d2 r2 n2) .gas_alert =
      if t2 - t1 ≥ cfg.GAS_ALERT_COOLDOWN then 1 else 0 := by
    rw [attemptCount_gas_alert cfg _ t2 d2 r2 n2 hsen h2, hg2, hs2]
    by_cases hcd : t2 - t1 ≥ cfg.GAS_ALERT_COOLDOWN <;> simp [hcd]
  constructor
  · intro hlt
    rw [hc1, hc2, if_neg (not_le.mpr hlt)]
  · intro hge
    rw [hc1, hc2, if_pos hge]

/-- Witness for C3: a cooled-down second call 100 s after the first makes no
second attempt. -/
theorem gas_cooldown_gating_witness :
    attemptCount (sendFarmerAlert defaultConfig freshState 0
        (fallbackDecision defaultConfig exampleReading) exampleReading
        (fun _ _ => true)) .gas_alert +
      attemptCount (sendFarmerAlert defaultConfig
        (sendFarmerAlert defaultConfig freshState 0
          (fallbackDecision defaultConfig exampleReading) exampleReading
          (fun _ _ => true)).state 100
        (fallbackDecision defaultConfig exampleReading) exampleReading
        (fun _ _ => true)) .gas_alert = 1 :=
  (gas_cooldown_gating defaultConfig freshState 0 100
      (fallbackDecision defaultConfig exampleReading)
      (fallbackDecision defaultConfig exampleReading)
      exampleReading exampleReading (fun _ _ => true) (fun _ _ => true)
      rfl (by decide) rfl (by decide) (by decide)
      (fun m => rfl) (fun m => rfl)).1 (by decide)

/-- The temperature dedup rule against a recorded snapshot with the same
fan state and LED color: no alert. -/
theorem shouldSendAlert_temperature_same (cfg : Config) (st : SMSManagerState)
    (now : ℤ) (d prev : Decision) (hprev : st.last_state_temperature = some prev)
    (hf : prev.fan = d.fan) (hl : prev.led = d.led) :
    shouldSendAlert cfg st now .temperature d = false := by
  unfold shouldSendAlert
  rw [if_neg (by simp)]
  unfold lastState
  rw [hprev]
  simp [hf, hl]

/-- The temperature dedup rule against a recorded snapshot with a different
fan state: alert. -/
theorem shouldSendAlert_temperature_fan_change (cfg : Config) (st : SMSManagerState)
    (now : ℤ) (d prev : Decision) (hprev : st.last_state_temperature = some prev)
    (hf : prev.fan ≠ d.fan) :
    shouldSendAlert cfg st now .temperature d = true := by
  unfold shouldSendAlert
  rw [if_neg (by simp)]
  unfold lastState
  rw [hprev]
  simp [hf]

/-- One dispatch call makes exactly one temperature notifier invocation when
the temperature guard holds and none otherwise. -/
theorem attemptCount_temperature (cfg : Config) (st : SMSManagerState) (now : ℤ)
    (d : Decision) (r : Reading) (notify : AlertType → String → Bool)
    (h1 : st.sms_enabled = true) (h2 : ¬ cfg.AT_RECIPIENT_PHONE = "") :
    attemptCount (sendFarmerAlert cfg st now d r notify) .temperature =
      if shouldSendAlert cfg st now .temperature d then 1 else 0 := by
  rw [attemptCount, sendFarmerAlert_attempts cfg st now d r notify h1 h2]
  cases hg : d.gas_alert && shouldSendAlert cfg st now .gas_alert d <;>
  cases ht : shouldSendAlert cfg st now .temperature d <;>
  cases hp : shouldSendAlert cfg st now .priority d &&
      (d.priority == "high" || d.priority == "critical") <;>
    simp [hg, ht, hp, List.filter] <;> rfl

/-- C4, first half: when two consecutive dispatch calls carry identical
`(fan, led)` pairs, the temperature category never sends in both calls (the
rebaselined snapshot silences the second call).  Second half: a decision
transitioning from a stored `(off, yellow)` snapshot to `(on, red)` makes
exactly one temperature notifier invocation, and with a succeeding notifier
the temperature category is reported sent. -/
theorem temperature_change_only_alerts :
    (∀ (cfg : Config) (st : SMSManagerState) (t1 t2 : ℤ) (d1 d2 : Decision)
        (r1 r2 : Reading) (n1 n2 : AlertType → String → Bool),
      st.sms_enabled = true → ¬ cfg.AT_RECIPIENT_PHONE = "" →
      d1.fan = d2.fan → d1.led = d2.led →
      ¬(AlertType.temperature ∈ (sendFarmerAlert cfg st t1 d1 r1 n1).result.alerts_sent ∧
        AlertType.temperature ∈ (sendFarmerAlert cfg (sendFarmerAlert cfg st t1 d1 r1 n1).state
          t2 d2 r2 n2).result.alerts_sent)) ∧
    (∀ (cfg : Config) (st : SMSManagerState) (now : ℤ) (d prev : Decision)
        (r : Reading) (notify : AlertType → String → Bool),
      st.sms_enabled = true → ¬ cfg.AT_RECIPIENT_PHONE = "" →
      st.last_state_temperature = some prev →
      prev.fan = "off" → prev.led = "yellow" → d.fan = "on" → d.led = "red" →
      (∀ m, notify .temperature m = true) →
      attemptCount (sendFarmerAlert cfg st now d r notify) .temperature = 1 ∧
        AlertType.temperature ∈ (sendFarmerAlert cfg st now d r notify).result.alerts_sent) := by
  constructor
  · intro cfg st t1 t2 d1 d2 r1 r2 n1 n2 h1 h2 hf hl hboth
    have hstate := sendFarmerAlert_state cfg st t1 d1 r1 n1 h1 h2
    have hsen : (sendFarmerAlert cfg st t1 d1 r1 n1).state.sms_enabled = true := by
      rw [hstate]
      exact h1
    have hsnap : (sendFarmerAlert cfg st t1 d1 r1 n1).state.last_state_temperature =
        some d1 := by
      rw [hstate]
    have hss2 : shouldSendAlert cfg (sendFarmerAlert cfg st t1 d1 r1 n1).state
        t2 .temperature d2 = false :=
      shouldSendAlert_temperature_same cfg _ t2 d2 d1 hsnap hf hl
    have := hboth.2
    rw [sendFarmerAlert_alerts_sent cfg _ t2 d2 r2 n2 hsen h2] at this
    simp [hss2] at this
  · intro cfg st now d prev r notify h1 h2 hprev hpf hpl hdf hdl hn
    have hss : shouldSendAlert cfg st now .temperature d = true := by
      refine shouldSendAlert_temperature_fan_change cfg st now d prev hprev ?_
      rw [hpf, hdf]
      decide
    constructor
    · rw [attemptCount_temperature cfg st now d r notify h1 h2, hss]
      rfl
    · rw [sendFarmerAlert_alerts_sent cfg st now d r notify h1 h2]
      simp [hss, hn]

/-- A state whose stored temperature snapshot is the quiet fallback decision
(`fan = off`, `led = yellow`). -/
def offYellowState : SMSManagerState :=
  { freshState with
    last_state_temperature := some (fallbackDecision defaultConfig quietReading) }

/-- Witness for C4 at concrete calls: an unchanged pair is silent on the
second call, and the `(off, yellow) → (on, red)` transition fires once. -/
theorem temperature_change_only_alerts_witness :
    (¬(AlertType.temperature ∈ (sendFarmerAlert defaultConfig freshState 0
          (fallbackDecision defaultConfig quietReading) quietReading
          (fun _ _ => true)).result.alerts_sent ∧
       AlertType.temperature ∈ (sendFarmerAlert defaultConfig
          (sendFarmerAlert defaultConfig freshState 0
            (fallbackDecision defaultConfig quietReading) quietReading
            (fun _ _ => true)).state 60
          (fallbackDecision defaultConfig quietReading) quietReading
          (fun _ _ => true)).result.alerts_sent)) ∧
    (attemptCount (sendFarmerAlert defaultConfig offYellowState 0
        (fallbackDecision defaultConfig exampleReading) exampleReading
        (fun _ _ => true)) .temperature = 1 ∧
      AlertType.temperature ∈ (sendFarmerAlert defaultConfig offYellowState 0
        (fallbackDecision defaultConfig exampleReading) exampleReading
        (fun _ _ => true)).result.alerts_sent) :=
  ⟨temperature_change_only_alerts.1 defaultConfig freshState 0 60
      (fallbackDecision defaultConfig quietReading)
      (fallbackDecision defaultConfig quietReading) quietReading quietReading
      (fun _ _ => true) (fun _ _ => true) rfl (by decide) rfl rfl,
    temperature_change_only_alerts.2 defaultConfig offYellowState 0
      (fallbackDecision defaultConfig exampleReading)
      (fallbackDecision defaultConfig quietReading) exampleReading
      (fun _ _ => true) rfl (by decide) rfl (by decide) (by decide)
      (by decide) (by decide) (fun m => rfl)⟩

/-- A low-priority, gas-free decision (the fallback verdict for a quiet
reading has this shape). -/
def lowDecision : Decision :=
  { action := "stop fan"
    led := "yellow"
    fan := "off"
    gas_alert := false
    reasoning := "quiet"
    priority := "low" }

/-- Counterexample to C5 as stated: with no prior priority snapshot the
should-send predicate returns true for a low-priority decision, yet the
dispatcher makes no priority-category notifier invocation, because the send
is additionally guarded by `decision.priority in [high, critical]`. -/
theorem priority_send_counterexample :
    shouldSendAlert defaultConfig freshState 0 .priority lowDecision = true ∧
    ((sendFarmerAlert defaultConfig freshState 0 lowDecision quietReading
        (fun _ _ => true)).attempts.filter
      (fun p => p.1 == AlertType.priority)) = [] := by
  constructor
  · rfl
  · rfl

/-- C5 amended: the dispatcher renders the priority message and invokes the
notifier for the priority category exactly on calls where the should-send
predicate holds AND the decision priority lies in the escalated band. -/
theorem priority_send_when_escalated (cfg : Config) (st : SMSManagerState)
    (now : ℤ) (d : Decision) (r : Reading) (notify : AlertType → String → Bool)
    (h1 : st.sms_enabled = true) (h2 : ¬ cfg.AT_RECIPIENT_PHONE = "")
    (hss : shouldSendAlert cfg st now .priority d = true)
    (hband : d.priority = "high" ∨ d.priority = "critical") :
    ((sendFarmerAlert cfg st now d r notify).attempts.filter
        (fun p => p.1 == AlertType.priority)) =
      [(AlertType.priority, formatPriorityMessage d r)] := by
  rw [sendFarmerAlert_attempts cfg st now d r notify h1 h2]
  have hb : (d.priority == "high" || d.priority == "critical") = true := by
    rcases hband with h | h <;> simp [h]
  cases hg : d.gas_alert && shouldSendAlert cfg st now .gas_alert d <;>
  cases ht : shouldSendAlert cfg st now .temperature d <;>
    simp [hg, ht, hss, hb, List.filter] <;> rfl

/-- Witness for C5 amended: a first-ever high-priority decision triggers the
rendered priority message. -/
theorem priority_send_when_escalated_witness :
    ((sendFarmerAlert defaultConfig freshState 0
        (fallbackDecision defaultConfig exampleReading) exampleReading
        (fun _ _ => true)).attempts.filter
      (fun p => p.1 == AlertType.priority)) =
      [(AlertType.priority,
        formatPriorityMessage (fallbackDecision defaultConfig exampleReading)
          exampleReading)] :=
  priority_send_when_escalated defaultConfig freshState 0
    (fallbackDecision defaultConfig exampleReading) exampleReading
    (fun _ _ => true) rfl (by decide) rfl (by decide)

/-- Under the guards that reach the category loop, the returned dict always
reports overall success, whatever the notifier did. -/
theorem sendFarmerAlert_success (cfg : Config) (st : SMSManagerState) (now : ℤ)
    (d : Decision) (r : Reading) (notify : AlertType → String → Bool)
    (h1 : st.sms_enabled = true) (h2 : ¬ cfg.AT_RECIPIENT_PHONE = "") :
    (sendFarmerAlert cfg st now d r notify).result.success = true := by
  have hen : ¬ st.sms_enabled = false := by simp [h1]
  unfold sendFarmerAlert
  rw [if_neg hen, if_neg h2]
  simp only [apply_ite (fun res : DispatchResult => res.success)]
  exact ite_self true

/-- The gas-alerted fallback decision for the end-to-end example reading. -/
def gasDecision : Decision := fallbackDecision defaultConfig exampleReading

/-- A state whose snapshots all carry `gasDecision` and whose gas clock just
fired: a dispatch of `gasDecision` against it has nothing to send. -/
def baselineState : SMSManagerState :=
  { sms_enabled := true
    last_state_temperature := some gasDecision
    last_state_priority := some gasDecision
    last_state_gas_alert := some gasDecision
    last_alert_time_gas_alert := some 0 }

/-- Counterexample to C6 as stated: in a dispatch call whose gas guard holds
but whose notifier invocation fails, the returned dict carries no record of
the failure — no error entry, overall success, and it is identical to the
dict returned by a call in which no category was due at all. -/
theorem dispatch_failure_unrecorded_counterexample :
    (gasDecision.gas_alert &&
      shouldSendAlert defaultConfig freshState 0 .gas_alert gasDecision) = true ∧
    (AlertType.gas_alert, formatGasMessage gasDecision exampleReading) ∈
      (sendFarmerAlert defaultConfig freshState 0 gasDecision exampleReading
        (fun _ _ => false)).attempts ∧
    (sendFarmerAlert defaultConfig freshState 0 gasDecision exampleReading
        (fun _ _ => false)).result.alerts_sent = [] ∧
    (sendFarmerAlert defaultConfig freshState 0 gasDecision exampleReading
        (fun _ _ => false)).result.error = none ∧
    (sendFarmerAlert defaultConfig freshState 0 gasDecision exampleReading
        (fun _ _ => false)).result =
      (sendFarmerAlert defaultConfig baselineState 0 gasDecision exampleReading
        (fun _ _ => true)).result ∧
    (sendFarmerAlert defaultConfig baselineState 0 gasDecision exampleReading
        (fun _ _ => true)).attempts = [] := by
  refine ⟨rfl, ?_, rfl, rfl, rfl, rfl⟩
  decide

/-- C6 amended: a category whose notifier invocation fails is merely left
out of `alerts_sent`; the failure does not abort the remaining categories
(the sequence of attempted categories is independent of the notifier
outcomes) and is recorded nowhere in the returned dict, which still reports
success with no error entry. -/
theorem dispatch_failures_not_aborting (cfg : Config) (st : SMSManagerState)
    (now : ℤ) (d : Decision) (r : Reading)
    (n1 n2 : AlertType → String → Bool)
    (h1 : st.sms_enabled = true) (h2 : ¬ cfg.AT_RECIPIENT_PHONE = "") :
    ((sendFarmerAlert cfg st now d r n1).attempts.map Prod.fst =
      (sendFarmerAlert cfg st now d r n2).attempts.map Prod.fst) ∧
    (sendFarmerAlert cfg st now d r n1).result.error = none ∧
    (sendFarmerAlert cfg st now d r n1).result.success = true ∧
    (∀ ty m, (ty, m) ∈ (sendFarmerAlert cfg st now d r n1).attempts →
      n1 ty m = false → ty ∉ (sendFarmerAlert cfg st now d r n1).result.alerts_sent) := by
  refine ⟨?_, sendFarmerAlert_error_none cfg st now d r n1,
    sendFarmerAlert_success cfg st now d r n1 h1 h2, ?_⟩
  · rw [sendFarmerAlert_attempts cfg st now d r n1 h1 h2,
      sendFarmerAlert_attempts cfg st now d r n2 h1 h2]
  · intro ty m hmem hfail
    rw [sendFarmerAlert_attempts cfg st now d r n1 h1 h2] at hmem
    rw [sendFarmerAlert_alerts_sent cfg st now d r n1 h1 h2]
    cases hg : d.gas_alert && shouldSendAlert cfg st now .gas_alert d <;>
    cases ht : shouldSendAlert cfg st now .temperature d <;>
    cases hp : shouldSendAlert cfg st now .priority d &&
        (d.priority == "high" || d.priority == "critical") <;>
      · simp [hg, ht, hp] at hmem ⊢
        first
          | exact fun h => by simp_all
          | skip
        try
          rcases hmem with ⟨hty, hm⟩ | ⟨hty, hm⟩ | ⟨hty, hm⟩ <;>
            subst hty <;> subst hm <;> simp [hfail, hg, ht, hp]
        try
          rcases hmem with ⟨hty, hm⟩ | ⟨hty, hm⟩ <;>
            subst hty <;> subst hm <;> simp [hfail, hg, ht, hp]

/-- Witness for C6 amended at a concrete failing-notifier call. -/
theorem dispatch_failures_not_aborting_witness :
    ((sendFarmerAlert defaultConfig freshState 0 gasDecision exampleReading
        (fun _ _ => false)).attempts.map Prod.fst =
      (sendFarmerAlert defaultConfig freshState 0 gasDecision exampleReading
        (fun _ _ => true)).attempts.map Prod.fst) ∧
    (sendFarmerAlert defaultConfig freshState 0 gasDecision exampleReading
        (fun _ _ => false)).result.error = none ∧
    (sendFarmerAlert defaultConfig freshState 0 gasDecision exampleReading
        (fun _ _ => false)).result.success = true ∧
    (∀ ty m, (ty, m) ∈ (sendFarmerAlert defaultConfig freshState 0 gasDecision
        exampleReading (fun _ _ => false)).attempts →
      (fun (_ : AlertType) (_ : String) => false) ty m = false →
      ty ∉ (sendFarmerAlert defaultConfig freshState 0 gasDecision exampleReading
        (fun _ _ => false)).result.alerts_sent) :=
  dispatch_failures_not_aborting defaultConfig freshState 0 gasDecision
    exampleReading (fun _ _ => false) (fun _ _ => true) rfl (by decide)

/-- Witness for C10 at a concrete gas-free decision and populated state. -/
theorem gas_category_requires_gas_alert_witness :
    let d := fallbackDecision defaultConfig quietReading
    let st : SMSManagerState :=
      { sms_enabled := true, last_state_temperature := some d,
        last_state_priority := some d, last_state_gas_alert := some d,
        last_alert_time_gas_alert := none }
    (∀ m, (AlertType.gas_alert, m) ∉
      (sendFarmerAlert defaultConfig st 0 d quietReading (fun _ _ => true)).attempts) ∧
    AlertType.gas_alert ∉
      (sendFarmerAlert defaultConfig st 0 d quietReading (fun _ _ => true)).result.alerts_sent ∧
    (st.last_state_gas_alert.isSome = true →
      shouldSendAlert defaultConfig st 0 .gas_alert d = true) :=
  gas_category_requires_gas_alert defaultConfig _ 0 _ quietReading _ (by decide)

/-- `Config.validate_config`: the `issues` list, in source order (the issue
texts interpolate the offending values in the source; the values are elided
here since only presence is ever branched on). -/
def validateConfigIssues (cfg : Config) : List String :=
  (if cfg.GEMINI_API_KEY = "" then
    ["GEMINI_API_KEY is required but not set"] else []) ++
  (if cfg.SMS_ENABLED then
    (if cfg.AT_USERNAME = "" then
      ["AT_USERNAME is required when SMS is enabled"] else []) ++
    (if cfg.AT_API_KEY = "" then
      ["AT_API_KEY is required when SMS is enabled"] else []) ++
    (if cfg.AT_RECIPIENT_PHONE = "" then
      ["AT_RECIPIENT_PHONE is required when SMS is enabled"]
     else if ¬ cfg.AT_RECIPIENT_PHONE.startsWith "+" then
      ["AT_RECIPIENT_PHONE should include country code"] else [])
   else []) ++
  (if cfg.TEMP_COLD_THRESHOLD ≥ cfg.TEMP_HOT_THRESHOLD then
    ["TEMP_COLD_THRESHOLD must be less than TEMP_HOT_THRESHOLD"] else []) ++
  (if cfg.LIGHT_DIM_THRESHOLD ≥ cfg.LIGHT_BRIGHT_THRESHOLD then
    ["LIGHT_DIM_THRESHOLD must be less than LIGHT_BRIGHT_THRESHOLD"] else []) ++
  (if cfg.HUMIDITY_LOW_THRESHOLD ≥ cfg.HUMIDITY_HIGH_THRESHOLD then
    ["HUMIDITY_LOW_THRESHOLD must be less than HUMIDITY_HIGH_THRESHOLD"] else [])

/-- The `valid` entry of the dict returned by `Config.validate_config`:
`len(issues) == 0`. -/
def configValid (cfg : Config) : Bool :=
  (validateConfigIssues cfg).length = 0

/-- Module initialization of `app.py` (lines 27-29): `GeminiProcessor()`
raises `ValueError` exactly when `Config.GEMINI_API_KEY` is unset, while
`SMSManager.__init__` catches every exception of its own setup.  Nothing at
startup calls `validate_config`, so this is the entire startup gate. -/
def startupSucceeds (cfg : Config) : Bool :=
  cfg.GEMINI_API_KEY != ""

/-- A configuration with inverted temperature thresholds and alerting
enabled without a recipient, but a present oracle key. -/
def invertedConfig : Config :=
  { defaultConfig with
    TEMP_COLD_THRESHOLD := 40
    AT_RECIPIENT_PHONE := ""
    SMS_ENABLED := true }

/-- Counterexample to C9 as stated: a configuration with inverted
temperature threshold ordering and alerting enabled with no recipient is
flagged invalid by `validate_config`, yet module initialization succeeds —
the process starts anyway. -/
theorem startup_not_gated_counterexample :
    invertedConfig.TEMP_COLD_THRESHOLD ≥ invertedConfig.TEMP_HOT_THRESHOLD ∧
    invertedConfig.SMS_ENABLED = true ∧
    invertedConfig.AT_RECIPIENT_PHONE = "" ∧
    configValid invertedConfig = false ∧
    startupSucceeds invertedConfig = true := by
  decide

/-- C9 amended: startup fails only for a missing oracle credential; inverted
threshold ordering and a missing recipient with alerting enabled are
reported as issues by `validate_config` but do not prevent startup. -/
theorem startup_gating_amended (cfg : Config) (h : ¬ cfg.GEMINI_API_KEY = "") :
    startupSucceeds cfg = true ∧
    (cfg.TEMP_COLD_THRESHOLD ≥ cfg.TEMP_HOT_THRESHOLD ∨
      cfg.LIGHT_DIM_THRESHOLD ≥ cfg.LIGHT_BRIGHT_THRESHOLD ∨
      cfg.HUMIDITY_LOW_THRESHOLD ≥ cfg.HUMIDITY_HIGH_THRESHOLD ∨
      (cfg.SMS_ENABLED = true ∧ cfg.AT_RECIPIENT_PHONE = "") →
      configValid cfg = false) := by
  constructor
  · simp [startupSucceeds, h]
  · intro hbad
    have hmem : ∃ s, s ∈ validateConfigIssues cfg := by
      rcases hbad with hb | hb | hb | ⟨hb1, hb2⟩
      · exact ⟨"TEMP_COLD_THRESHOLD must be less than TEMP_HOT_THRESHOLD",
          by simp [validateConfigIssues, hb]⟩
      · exact ⟨"LIGHT_DIM_THRESHOLD must be less than LIGHT_BRIGHT_THRESHOLD",
          by simp [validateConfigIssues, hb]⟩
      · exact ⟨"HUMIDITY_LOW_THRESHOLD must be less than HUMIDITY_HIGH_THRESHOLD",
          by simp [validateConfigIssues, hb]⟩
      · exact ⟨"AT_RECIPIENT_PHONE is required when SMS is enabled",
          by simp [validateConfigIssues, hb1, hb2]⟩
    rcases hmem with ⟨s, hs⟩
    have hne : validateConfigIssues cfg ≠ [] := List.ne_nil_of_mem hs
    simp [configValid, List.length_eq_zero, hne]

/-- Witness for C9 amended at the concrete misconfigured config. -/
theorem startup_gating_amended_witness :
    startupSucceeds invertedConfig = true ∧
    (invertedConfig.TEMP_COLD_THRESHOLD ≥ invertedConfig.TEMP_HOT_THRESHOLD ∨
      invertedConfig.LIGHT_DIM_THRESHOLD ≥ invertedConfig.LIGHT_BRIGHT_THRESHOLD ∨
      invertedConfig.HUMIDITY_LOW_THRESHOLD ≥ invertedConfig.HUMIDITY_HIGH_THRESHOLD ∨
      (invertedConfig.SMS_ENABLED = true ∧ invertedConfig.AT_RECIPIENT_PHONE = "") →
      configValid invertedConfig = false) :=
  startup_gating_amended invertedConfig (by decide)

end SmartFarm
